import Mathlib

set_option maxRecDepth 100000

/-!
Verification development for the Full-Stack-UI-Config-Bot repository.

Shallow embedding of the two core components:
  * the SQL statement generator of `src/backend/mcpserver.py`
    (`sql_escape`, `generate_sql_statements`, `generate_form_page_sql`), and
  * the workflow state machine of `src/backend/clientreset.py`
    (`WorkflowState`, `WorkflowMemory`, `MCPAIAssistant._execute_state_logic`,
    `MCPAIAssistant._call_tool`), with external tools modelled as an oracle
    returning the JSON objects the server code builds.

Strings are modelled through their character lists; all Python string
operations used by the code (lower, strip, upper, substring test, str.replace
of a single-character pattern, str.title) are embedded as executable Lean
functions over `List Char` (ASCII-faithful, which covers every string the
code compares against).
-/

namespace UIBot

/-! ## String helpers (embeddings of the Python string operations used) -/

/-- Embedding of Python `str.lower()` (ASCII). -/
def lowerStr (s : String) : String := ⟨s.data.map Char.toLower⟩

/-- Embedding of Python `str.upper()` (ASCII). -/
def upperStr (s : String) : String := ⟨s.data.map Char.toUpper⟩

/-- ASCII whitespace test, for Python `str.strip()`. -/
def isWs (c : Char) : Bool := c == ' ' || c == '\t' || c == '\n' || c == '\r'

/-- Embedding of Python `str.strip()` (ASCII whitespace). -/
def stripStr (s : String) : String :=
  ⟨((s.data.dropWhile isWs).reverse.dropWhile isWs).reverse⟩

/-- Substring search over character lists: does the needle occur in the
haystack?  Embeds Python's `needle in haystack` on strings. -/
def subSearch (n : List Char) : List Char → Bool
  | [] => n.isEmpty
  | c :: t => n.isPrefixOf (c :: t) || subSearch n t

/-- Python `needle in haystack` for strings. -/
def containsSub (hay needle : String) : Bool := subSearch needle.data hay.data

/-- Quote doubling on character lists: embedding of
`str.replace("'", "''")` (equivalently the Jinja2 filter
`replace("'", "''")`), for a single-character pattern. -/
def escQChars : List Char → List Char
  | [] => []
  | c :: cs => if c = '\'' then '\'' :: '\'' :: escQChars cs else c :: escQChars cs

/-- Embedding of `value.replace("'", "''")` as used in every Jinja2 template
of `generate_sql_statements` (mcpserver.py). -/
def escQ (s : String) : String := ⟨escQChars s.data⟩

/-- Replace underscores by spaces: embedding of `.replace("_", " ")`
(clientreset.py line 484). -/
def underscoreToSpace (s : String) : String :=
  ⟨s.data.map (fun c => if c = '_' then ' ' else c)⟩

/-- Helper for `pyTitle`: the Boolean tracks whether the previous character
was cased (alphabetic, in the ASCII fragment used by the code). -/
def pyTitleAux : Bool → List Char → List Char
  | _, [] => []
  | prevCased, c :: cs =>
    if c.isAlpha then
      (if prevCased then c.toLower else c.toUpper) :: pyTitleAux true cs
    else
      c :: pyTitleAux false cs

/-- Embedding of Python `str.title()` (ASCII): each alphabetic character is
uppercased when it follows a non-alphabetic character and lowercased
otherwise. -/
def pyTitle (s : String) : String := ⟨pyTitleAux false s.data⟩

/-- Join a list of strings with newlines: embedding of `"\n".join(output)`
(mcpserver.py line 213). -/
def joinNL : List String → String
  | [] => ""
  | [s] => s
  | s :: t :: r => s ++ "\n" ++ joinNL (t :: r)

/-- The 80-character `"=" * 80` header rule (mcpserver.py lines 40-42). -/
def eq80 : String := ⟨List.replicate 80 '='⟩

/-- Prefix test on strings (through their character lists), used to
identify which INSERT template produced an output element. -/
def hasPre (p s : String) : Bool := p.data.isPrefixOf s.data

/-! ## JSON / Python value model

The client parses every tool reply with `json.loads` and reads it with
`dict.get`; the server builds those replies with `json.dumps` over flat
dictionaries of strings, numbers, booleans and nulls.  A decoded JSON value
is `Option JVal`, with `none` playing the role of Python `None` (which is
also what `dict.get` returns for an absent key, exactly as in Python). -/

/-- A non-null JSON scalar as decoded by `json.loads` (the tool replies in
mcpserver.py are flat objects of scalars). -/
inductive JVal where
  | jbool (b : Bool)
  | jnum (n : Int)
  | jstr (s : String)
deriving DecidableEq, Repr

/-- A decoded Python value: `none` is Python `None` (JSON `null`). -/
abbrev PyVal := Option JVal

/-- A decoded JSON object (Python dict) as an association list. -/
abbrev JObj := List (String × PyVal)

/-- Embedding of Python `d.get(k)`: the stored value, or `None` when the key
is absent. -/
def jget (d : JObj) (k : String) : PyVal :=
  match d.find? (fun p => p.1 == k) with
  | some p => p.2
  | none => none

/-- Embedding of Python `d.get(k, dflt)`: the default applies only when the
key is absent (a stored `None` is returned as `None`). -/
def jgetD (d : JObj) (k : String) (dflt : PyVal) : PyVal :=
  match d.find? (fun p => p.1 == k) with
  | some p => p.2
  | none => dflt

/-- Python truthiness of a decoded value, as used in `if result_data.get("found"):`
and `if max_id_data.get("success"):` (clientreset.py). -/
def truthy : PyVal → Bool
  | none => false
  | some (.jbool b) => b
  | some (.jnum n) => n != 0
  | some (.jstr s) => !s.isEmpty

/-- Embedding of the `int(...)` coercion in
`self.memory.process_id = int(result_data.get("processId"))`
(clientreset.py line 228).  The server sends `processId` as a JSON number
whenever `found` is true; `int(None)` or `int` of a non-numeric string would
raise in Python and is unreachable for the server's replies, so those cases
are mapped to 0 here. -/
def pyInt : PyVal → Int
  | some (.jnum n) => n
  | some (.jbool b) => if b then 1 else 0
  | some (.jstr s) => (s.toInt?).getD 0
  | none => 0

/-- String content of a decoded value.  Used where the client calls string
methods on a stored value (`field["field_id"].replace(...)`), which would
raise on a non-string in Python; the stored value is a string on every
reachable path. -/
def pyStr : PyVal → String
  | some (.jstr s) => s
  | _ => ""

/-! ## SQL statement generator (mcpserver.py, `generate_sql_statements`)

The generator consumes the dictionary decoded from `form_data_json`.  It is
embedded for aggregates that are well-typed per the tool's documented input
contract (mcpserver.py lines 487-521): keys the code reads with `[...]` are
present at their documented types; keys it reads with `.get` or tests with
`{% if %}` are `Option`s (`none` = key absent).  The current date
(`date.today().isoformat()`, computed once at line 36) is passed as the
`today` parameter. -/

/-- One element of `page_values` (documented keys only; `group_id` and
`field_group_id` override the base context when present, per the
`{**base_data, **pv}` merge at mcpserver.py line 207). -/
structure PageValue where
  field_id : String
  group_id : Option Int := none
  field_group_id : Option Int := none
  display_label : Option String := none
  display_type : Option String := none
  validation_type : Option String := none
deriving DecidableEq, Repr

/-- One element of `new_fields` (mcpserver.py lines 163-168). -/
structure NewField where
  field_id : String
  display_type : Option String := none
  validation_type : Option String := none
deriving DecidableEq, Repr

/-- The form-data aggregate consumed by `generate_sql_statements`. -/
structure FormData where
  org_id : String
  org_name : String
  process_id : Int
  process_name : String
  is_new_process : Bool := false
  event_id : Int
  page_id : Int
  page_title : String
  page_url : String
  event_name : Option String := none
  group_id : Int := 1
  is_new_group : Bool := false
  group_name : Option String := none
  field_groups : List Int := []
  new_fields : List NewField := []
  page_values : List PageValue := []
deriving DecidableEq, Repr

/-- Embedding of `sql_escape` (mcpserver.py lines 28-32): `None` becomes the
unquoted token `NULL`, any other value has single quotes doubled.  (This
helper is defined by the server but never called by
`generate_sql_statements`, which escapes through Jinja2 filters instead.) -/
def sql_escape : Option String → String
  | none => "NULL"
  | some v => escQ v

/-- Rendering of `{% if x %}f(x){% else %}NULL{% endif %}` for a string
context variable `x`: Jinja2 takes the else-branch when the key is absent
(undefined) or the string is empty (falsy). -/
def jinjaIfStr (v : Option String) (f : String → String) : String :=
  match v with
  | some s => if s.isEmpty then "NULL" else f s
  | none => "NULL"

/-- The header lines of the output (mcpserver.py lines 40-46). -/
def headerSection (fd : FormData) : List String :=
  [eq80,
   "FORM PAGE CREATION - SQL STATEMENTS",
   eq80,
   "Organization: " ++ fd.org_name ++ " (orgId: " ++ fd.org_id ++ ")",
   "Process: " ++ fd.process_name ++ " (processId: " ++ toString fd.process_id ++ ")",
   "Page: " ++ fd.page_title ++ " (pageId: " ++ toString fd.page_id ++ ")",
   ""]

/-- The rendered `orgProcesses` INSERT (template at mcpserver.py lines
52-61, rendered with the arguments of lines 62-67). -/
def orgProcessesBlock (today : String) (fd : FormData) : String :=
  "\nINSERT INTO orgProcesses (\n    recSeq, orgId, recStatus, processId, processName, processGroupCode, pageId, platformAccess, geoFenced, \n    timeFenced, apiRouteName, externalURL, dataStatus, displaySeq, iconURL, isDefaultURL, fromDate, endDate, \n    createdBy, createdOn, modifiedBy, modifiedOn\n) VALUES (\n    1, '"
  ++ fd.org_id ++ "', 'A', " ++ toString fd.process_id ++ ", '"
  ++ escQ fd.process_name ++ "', NULL, " ++ toString fd.process_id
  ++ ", NULL, NULL, \n    NULL, '" ++ escQ fd.process_name
  ++ "', NULL, 'A', 0, NULL, 0, '" ++ today
  ++ "', NULL, \n    'ADMIN', CURRENT_TIMESTAMP, 'ADMIN', CURRENT_TIMESTAMP\n);"

/-- The rendered `orgProcessEvents` INSERT (template at mcpserver.py lines
73-82, rendered with the arguments of lines 83-90; `event_name` defaults to
`page_title` via `form_data.get('event_name', form_data['page_title'])`). -/
def orgProcessEventsBlock (today : String) (fd : FormData) : String :=
  "\nINSERT INTO orgProcessEvents (\n    recSeq, orgId, recStatus, dataStatus, processId, eventId, eventName, eventGroupCode, pageId, eventProcessingFile, \n    isMenu, platformAccess, timeFenced, showMenu, displaySeq, fromDate, endDate, createdBy, createdOn, \n    modifiedBy, modifiedOn\n) VALUES (\n    1, '"
  ++ fd.org_id ++ "', 'A', 'A', " ++ toString fd.process_id ++ ", "
  ++ toString fd.event_id ++ ", '" ++ escQ (fd.event_name.getD fd.page_title)
  ++ "', NULL, " ++ toString fd.page_id ++ ", '', \n    'Y', NULL, NULL, 'Y', 10, '"
  ++ today
  ++ "', NULL, 'ADMIN', CURRENT_TIMESTAMP, \n    'ADMIN', CURRENT_TIMESTAMP\n);"

/-- The rendered `adminPages` INSERT (template at mcpserver.py lines 96-103,
rendered with the arguments of lines 104-111; note `page_url` is substituted
without any escaping filter). -/
def adminPagesBlock (fd : FormData) : String :=
  "\nINSERT INTO adminPages (\n    pageId, recStatus, pageURL, pageTitle, pageDisplayName, processId, eventId, pageType, \n    hideProcessEvents, pageSize, language, createdBy, createdOn, modifiedBy, modifiedOn\n) VALUES (\n    "
  ++ toString fd.page_id ++ ", 'A', '" ++ fd.page_url ++ "', '"
  ++ escQ fd.page_title ++ "', '" ++ escQ fd.page_title ++ "', "
  ++ toString fd.process_id ++ ", " ++ toString fd.event_id
  ++ ", 'F', \n    'Y', 12, 'en_US', 'ADMIN', CURRENT_TIMESTAMP, 'ADMIN', CURRENT_TIMESTAMP\n);"

/-- The rendered `adminFormGroups` INSERT (template at mcpserver.py lines
118-125; `group_name` defaults per line 128). -/
def adminFormGroupsBlock (fd : FormData) : String :=
  "\nINSERT INTO adminFormGroups (\n    groupId, recStatus, groupName, groupStatus, displayDivLength, displaySeq, \n    createdBy, createdOn, modifiedBy, modifiedOn\n) VALUES (\n    "
  ++ toString fd.group_id ++ ", 'A', '"
  ++ escQ (fd.group_name.getD ("Group_" ++ toString fd.group_id))
  ++ "', 'A', 12, 0, \n    'ADMIN', CURRENT_TIMESTAMP, 'ADMIN', CURRENT_TIMESTAMP\n);"

/-- One rendered `adminFieldGroups` INSERT (template at mcpserver.py lines
137-143, rendered per element of `field_groups`, lines 144-149). -/
def adminFieldGroupsStmt (fd : FormData) (fg_id : Int) : String :=
  "INSERT INTO adminFieldGroups (\n    fieldGroupId, recStatus, groupId, fieldGroupStatus, displayDivLength, displaySeq, \n    createdBy, createdOn, modifiedBy, modifiedOn\n) VALUES (\n    "
  ++ toString fg_id ++ ", 'A', " ++ toString fd.group_id
  ++ ", 'A', 12, 0, \n    'ADMIN', CURRENT_TIMESTAMP, 'ADMIN', CURRENT_TIMESTAMP\n);"

/-- One rendered `adminFields` INSERT (template at mcpserver.py lines
156-162, rendered per element of `new_fields`, lines 163-169; the `.get`
defaults are `'label'` and `'E'`).  `field_id` is substituted without any
escaping filter. -/
def adminFieldsStmt (today : String) (nf : NewField) : String :=
  "INSERT INTO adminFields (\n    fieldId, recStatus, fieldType, fieldStatus, dataFieldId, remarks, fromDate, \n    displayType, defaultValue, validationType, createdBy, createdOn, modifiedBy, modifiedOn\n) VALUES (\n    '"
  ++ nf.field_id ++ "', 'A', 'D', 'A', '" ++ nf.field_id ++ "', '', '"
  ++ today ++ "', \n    '" ++ nf.display_type.getD "label" ++ "', '', '"
  ++ nf.validation_type.getD "E"
  ++ "', 'ADMIN', CURRENT_TIMESTAMP, 'ADMIN', CURRENT_TIMESTAMP\n);"

/-- One rendered `orgPageValues` INSERT (template at mcpserver.py lines
178-193, rendered with `render_context = {**base_data, **pv}`, lines
194-208).  The base context carries `page_id`, `org_id`, `rec_seq`, `today`
and uses `form_data` `group_id` for both `group_id` and `field_group_id`;
a `page_values` entry overrides `group_id`/`field_group_id` when it carries
those keys.  The three `{% if %}` slots fall back to the quoted text `NULL`
exactly as the template writes them (the single quotes around the
conditional are part of the template). -/
def orgPageValuesStmt (today : String) (fd : FormData) (rec_seq : Int)
    (pv : PageValue) : String :=
  "INSERT INTO orgPageValues (\n    pageId, recSeq, orgId, recStatus, groupId, fieldGroupId, fieldId, \n    displayLabel, displayType, displaySubType, displayChannel, displayDivLength, displayLanguage, displaySeq, \n    displayDataLength, labelAlignment, required, mandatory, pageValueStatus, dependsOnValue, isRelativeTimeZone, \n    noWrap, isFilterable, sortable,  fromDate, helpText, defaultValue, validationType, \n    createdBy, createdOn, modifiedBy, modifiedOn\n) VALUES (\n    "
  ++ toString fd.page_id ++ ", " ++ toString rec_seq ++ ", '" ++ fd.org_id
  ++ "', 'A', " ++ toString (pv.group_id.getD fd.group_id) ++ ", "
  ++ toString (pv.field_group_id.getD fd.group_id) ++ ", '" ++ pv.field_id
  ++ "', \n    '" ++ jinjaIfStr pv.display_label escQ
  ++ "', \n    '" ++ jinjaIfStr pv.display_type id
  ++ "', 'search',\n    'D', 12, 'en_US', 10, 0,\n    'left', 'Y', 'Y', 'A', NULL, 0, 'Y', \n    NULL, NULL, '"
  ++ today ++ "', '', '', \n    '" ++ jinjaIfStr pv.validation_type id
  ++ "', \n    'ADMIN', CURRENT_TIMESTAMP, 'ADMIN', CURRENT_TIMESTAMP\n);"

/-- Section 1 of the output list: the conditional `orgProcesses` block
(mcpserver.py lines 48-68): emitted, followed by a blank line, only when
`form_data.get('is_new_process')` is truthy. -/
def orgProcessesSection (today : String) (fd : FormData) : List String :=
  if fd.is_new_process then [orgProcessesBlock today fd, ""] else []

/-- Section 2: the unconditional `orgProcessEvents` block and its blank
line (mcpserver.py lines 70-91). -/
def orgProcessEventsSection (today : String) (fd : FormData) : List String :=
  [orgProcessEventsBlock today fd, ""]

/-- Section 3: the unconditional `adminPages` block and its blank line
(mcpserver.py lines 93-112). -/
def adminPagesSection (fd : FormData) : List String :=
  [adminPagesBlock fd, ""]

/-- Section 4: the conditional `adminFormGroups` block (mcpserver.py lines
114-131). -/
def adminFormGroupsSection (fd : FormData) : List String :=
  if fd.is_new_group then [adminFormGroupsBlock fd, ""] else []

/-- Section 5: the `adminFieldGroups` statements, one per element of
`field_groups`, emitted only when that list is non-empty (mcpserver.py
lines 133-150; the guard `form_data.get('field_groups') and len(...) > 0`
is exactly non-emptiness). -/
def adminFieldGroupsSection (fd : FormData) : List String :=
  if fd.field_groups.isEmpty then []
  else fd.field_groups.map (adminFieldGroupsStmt fd) ++ [""]

/-- Section 6: the `adminFields` statements, one per element of
`new_fields`, emitted only when that list is non-empty (mcpserver.py lines
152-170). -/
def adminFieldsSection (today : String) (fd : FormData) : List String :=
  if fd.new_fields.isEmpty then []
  else fd.new_fields.map (adminFieldsStmt today) ++ [""]

/-- Section 7: the `orgPageValues` statements, one per element of
`page_values` in list order with `rec_seq` from `enumerate(..., 1)`,
emitted only when that list is non-empty (mcpserver.py lines 172-209). -/
def orgPageValuesSection (today : String) (fd : FormData) : List String :=
  if fd.page_values.isEmpty then []
  else fd.page_values.enum.map
        (fun ip => orgPageValuesStmt today fd (Int.ofNat ip.1 + 1) ip.2) ++ [""]

/-- The full `output` list built by `generate_sql_statements`
(mcpserver.py lines 37-209), as the concatenation of its sections in
emission order. -/
def sqlOutputList (today : String) (fd : FormData) : List String :=
  headerSection fd
  ++ orgProcessesSection today fd
  ++ orgProcessEventsSection today fd
  ++ adminPagesSection fd
  ++ adminFormGroupsSection fd
  ++ adminFieldGroupsSection fd
  ++ adminFieldsSection today fd
  ++ orgPageValuesSection today fd

/-- Embedding of `generate_sql_statements(form_data)` (mcpserver.py lines
34-213) with the current date (`date.today().isoformat()`, computed once at
line 36) passed as the `today` parameter: `"\n".join(output)`. -/
def generate_sql_statements (today : String) (fd : FormData) : String :=
  joinNL (sqlOutputList today fd)

/-- `generate_sql_statements` with the ambient clock made explicit: the
function reads `date.today()` exactly once, at entry (mcpserver.py line 36),
so it consumes only the first value of the clock stream. -/
def generate_sql_statements_clocked (clock : Nat → String) (fd : FormData) : String :=
  generate_sql_statements (clock 0) fd

/-! ## Server-side reply builders (mcpserver.py)

The client decodes each tool reply with `json.loads`; the reply objects are
embedded as the `JObj` the server's `json.dumps` call encodes. -/

/-- The success reply of the `get_max_process_id` tool (mcpserver.py lines
347-362): `max_id` is the `SELECT MAX(processId)` result (`none` for an
empty table).  Note the keys it actually sends: `success`, `maxProcessId`,
`suggestedNextProcessId` — there is no `suggested_next_id` key. -/
def serverMaxProcessIdResp (max_id : Option Int) : JObj :=
  [("success", some (.jbool true)),
   ("maxProcessId", some (.jnum (max_id.getD 0))),
   ("suggestedNextProcessId", some (.jnum (max_id.getD 0 + 100)))]

/-! ## Workflow state machine (clientreset.py)

`MCPAIAssistant._execute_state_logic` is embedded as a pure function
`step` from (tool oracle, memory, user utterance) to (updated memory, step
result).  Tool calls go through a `ToolOracle`: each oracle field is the
decoded JSON object (or, for `generate_form_page_sql`, the raw text) that
`_call_tool` followed by `json.loads` would produce for the given
arguments.  A transport failure is represented by the oracle returning the
object `{"success": false, "error": ...}` that `_call_tool` builds in its
`except` branch (clientreset.py lines 603-611). -/

/-- The workflow states (clientreset.py `WorkflowState`, lines 11-24). -/
inductive WorkflowState where
  | IDLE
  | ORG_NEEDED
  | PROCESS_NEEDED
  | PROCESS_CREATION_CONFIRM
  | EVENT_NEEDED
  | PAGE_TITLE_NEEDED
  | FIELDS_NEEDED
  | FIELD_CREATION_CONFIRM
  | FIELD_DISPLAY_TYPE
  | FIELD_VALIDATION_TYPE
  | SQL_GENERATION
  | COMPLETE
deriving DecidableEq, Repr

/-- One collected field dict (clientreset.py lines 365-370 and 436-441):
all four keys are set by both append sites, so each is a `PyVal` (which may
be Python `None` when the lookup reply lacked the key). -/
structure Field where
  field_id : PyVal
  existing : Bool
  display_type : PyVal
  validation_type : PyVal
deriving DecidableEq, Repr

/-- The session memory (clientreset.py `WorkflowMemory`, lines 26-46). -/
structure WorkflowMemory where
  org_id : PyVal := none
  org_name : PyVal := none
  process_id : PyVal := none
  process_name : PyVal := none
  is_new_process : Bool := false
  suggested_process_id : PyVal := none
  event_id : PyVal := none
  page_id : PyVal := none
  page_title : PyVal := none
  page_url : PyVal := none
  group_id : Int := 1
  fields : List Field := []
  current_state : WorkflowState := .IDLE
  pending_field_id : Option String := none
  pending_display_type : Option String := none
  pending_validation_type : Option String := none
deriving DecidableEq, Repr

/-- A fresh memory, as built by `WorkflowMemory.__init__` / `reset`. -/
def initMemory : WorkflowMemory := {}

/-- The payload carried in `result["tool_result"]`: the decoded JSON object
for the lookup tools, raw text for `generate_form_page_sql` (whose reply the
client never parses as JSON). -/
inductive ToolPayload where
  | jsonObj (o : JObj)
  | rawText (s : String)
deriving DecidableEq, Repr

/-- One element of the `page_values` list the client builds (clientreset.py
lines 479-489). -/
structure ClientPageValue where
  field_id : PyVal
  group_id : Int
  field_group_id : Int
  display_label : PyVal
  display_type : PyVal
  validation_type : PyVal
deriving DecidableEq, Repr

/-- The `form_data` dict the client assembles in the SQL_GENERATION state
(clientreset.py lines 461-490), before `json.dumps` hands it to the tool. -/
structure ClientFormData where
  org_id : PyVal
  org_name : PyVal
  process_id : PyVal
  process_name : PyVal
  is_new_process : Bool
  event_id : PyVal
  page_id : PyVal
  page_title : PyVal
  page_url : PyVal
  event_name : PyVal
  group_id : Int
  is_new_group : Bool
  field_groups : List Int
  new_fields : List Field
  page_values : List ClientPageValue
deriving DecidableEq, Repr

/-- Embedding of the `form_data` construction (clientreset.py lines
461-490): `new_fields` keeps the fields with `existing` false, `page_values`
maps over all fields in order; `display_label` is
`field["field_id"].replace("_", " ").title()`; `display_type` and
`validation_type` come from `field.get(...)` with keys that both append
sites always set, so the stored value (possibly `None`) is passed through. -/
def buildFormData (m : WorkflowMemory) : ClientFormData :=
  { org_id := m.org_id
    org_name := m.org_name
    process_id := m.process_id
    process_name := m.process_name
    is_new_process := m.is_new_process
    event_id := m.event_id
    page_id := m.page_id
    page_title := m.page_title
    page_url := m.page_url
    event_name := m.page_title
    group_id := m.group_id
    is_new_group := false
    field_groups := []
    new_fields := m.fields.filter (fun f => !f.existing)
    page_values := m.fields.map (fun f =>
      { field_id := f.field_id
        group_id := m.group_id
        field_group_id := m.group_id
        display_label := some (.jstr (pyTitle (underscoreToSpace (pyStr f.field_id))))
        display_type := f.display_type
        validation_type := f.validation_type }) }

/-- The tool oracle: for each tool the client may call, the decoded reply
for the given arguments (arguments mirror the dict the client passes). -/
structure ToolOracle where
  get_organization_by_name : String → JObj
  get_process_by_name : String → PyVal → JObj
  get_max_process_id : JObj
  get_events_for_process : PyVal → PyVal → JObj
  check_field_exists : String → JObj
  generate_page_url : String → JObj
  generate_form_page_sql : ClientFormData → String

/-- The `result` dict of `_execute_state_logic` (clientreset.py lines
175-182); the ad-hoc extra keys some branches add (`field_id`,
`suggested_process_id`, ...) are not modelled, the claims only consult
these. -/
structure StepResult where
  state_changed : Bool := false
  tool_called : Bool := false
  tool_name : Option String := none
  tool_result : Option ToolPayload := none
  next_state : WorkflowState
  action_taken : Option String := none
deriving DecidableEq, Repr

/-- Embedding of `MCPAIAssistant._execute_state_logic` (clientreset.py
lines 172-504): one state-machine step on a user utterance. -/
def step (o : ToolOracle) (m : WorkflowMemory) (user_input : String) :
    WorkflowMemory × StepResult :=
  match m.current_state with
  | .IDLE =>
    if ["create", "form", "page", "build", "yes"].any
        (fun phrase => containsSub (lowerStr user_input) phrase) then
      ({ m with current_state := .ORG_NEEDED },
       { state_changed := true, next_state := .ORG_NEEDED,
         action_taken := some "workflow_started" })
    else (m, { next_state := m.current_state })
  | .ORG_NEEDED =>
    if !(["yes", "ok", "sure", "proceed", "start"].contains (lowerStr user_input)) then
      let resp := o.get_organization_by_name user_input
      if truthy (jget resp "found") then
        ({ m with org_id := jget resp "orgId", org_name := jget resp "legalName",
                  current_state := .PROCESS_NEEDED },
         { state_changed := true, tool_called := true,
           tool_name := some "get_organization_by_name",
           tool_result := some (.jsonObj resp), next_state := .PROCESS_NEEDED,
           action_taken := some "organization_found" })
      else
        (m, { tool_called := true, tool_name := some "get_organization_by_name",
              tool_result := some (.jsonObj resp), next_state := m.current_state,
              action_taken := some "organization_not_found" })
    else (m, { next_state := m.current_state })
  | .PROCESS_NEEDED =>
    if !(["ok", "next", "continue", "proceed"].contains (lowerStr user_input)) then
      let resp := o.get_process_by_name user_input m.org_id
      if truthy (jget resp "found") then
        ({ m with process_id := some (.jnum (pyInt (jget resp "processId"))),
                  process_name := jget resp "processName",
                  is_new_process := false, current_state := .EVENT_NEEDED },
         { state_changed := true, tool_called := true,
           tool_name := some "get_process_by_name",
           tool_result := some (.jsonObj resp), next_state := .EVENT_NEEDED,
           action_taken := some "process_found" })
      else
        let max_id_data := o.get_max_process_id
        let suggested_id : PyVal :=
          if truthy (jget max_id_data "success") then
            jgetD max_id_data "suggested_next_id" (some (.jnum 1))
          else some (.jnum 1)
        ({ m with process_name := some (.jstr user_input),
                  suggested_process_id := suggested_id,
                  current_state := .PROCESS_CREATION_CONFIRM },
         { state_changed := true, tool_called := true,
           tool_name := some "get_process_by_name",
           tool_result := some (.jsonObj resp),
           next_state := .PROCESS_CREATION_CONFIRM,
           action_taken := some "process_not_found_ask_create" })
    else (m, { next_state := m.current_state,
               action_taken := some "ask_for_process_name" })
  | .PROCESS_CREATION_CONFIRM =>
    let user_lower := stripStr (lowerStr user_input)
    if ["yes", "y", "create", "ok", "sure", "proceed"].any
        (fun word => containsSub user_lower word) then
      let m1 := { m with is_new_process := true,
                         process_id := m.suggested_process_id,
                         event_id := m.suggested_process_id,
                         page_id := m.suggested_process_id,
                         current_state := .PAGE_TITLE_NEEDED }
      (m1, { state_changed := true, next_state := .PAGE_TITLE_NEEDED,
             action_taken := some "new_process_confirmed" })
    else if ["no", "n", "wrong", "cancel", "retry"].any
        (fun word => containsSub user_lower word) then
      ({ m with process_name := none, suggested_process_id := none,
                current_state := .PROCESS_NEEDED },
       { state_changed := true, next_state := .PROCESS_NEEDED,
         action_taken := some "process_name_retry" })
    else (m, { next_state := m.current_state,
               action_taken := some "unclear_process_response" })
  | .EVENT_NEEDED =>
    if !m.is_new_process then
      let resp := o.get_events_for_process m.process_id m.org_id
      let m1 :=
        if truthy (jget resp "success") then
          { m with event_id := jget resp "suggestedNextEventId",
                   page_id := jget resp "suggestedNextEventId" }
        else m
      ({ m1 with current_state := .PAGE_TITLE_NEEDED },
       { state_changed := true, tool_called := true,
         tool_name := some "get_events_for_process",
         tool_result := some (.jsonObj resp), next_state := .PAGE_TITLE_NEEDED,
         action_taken := some "event_id_retrieved" })
    else
      ({ m with current_state := .PAGE_TITLE_NEEDED },
       { state_changed := true, next_state := .PAGE_TITLE_NEEDED,
         action_taken := some "event_id_retrieved" })
  | .PAGE_TITLE_NEEDED =>
    if !(["ok", "next", "continue", "proceed"].contains (lowerStr user_input)) then
      let resp := o.generate_page_url user_input
      if truthy (jget resp "success") then
        ({ m with page_title := jget resp "pageTitle",
                  page_url := jget resp "pageURL",
                  current_state := .FIELDS_NEEDED },
         { state_changed := true, tool_called := true,
           tool_name := some "generate_page_url",
           tool_result := some (.jsonObj resp), next_state := .FIELDS_NEEDED,
           action_taken := some "page_title_set" })
      else
        (m, { tool_called := true, tool_name := some "generate_page_url",
              tool_result := some (.jsonObj resp), next_state := m.current_state })
    else (m, { next_state := m.current_state,
               action_taken := some "ask_for_page_title" })
  | .FIELDS_NEEDED =>
    if ["done", "finish", "complete", "no more fields"].contains (lowerStr user_input) then
      if m.fields.length = 0 then
        (m, { next_state := m.current_state, action_taken := some "no_fields_added" })
      else
        ({ m with current_state := .SQL_GENERATION },
         { state_changed := true, next_state := .SQL_GENERATION,
           action_taken := some "fields_complete" })
    else if ["ok", "next", "continue", "proceed"].contains (lowerStr user_input) then
      (m, { next_state := m.current_state, action_taken := some "ask_for_fields" })
    else
      let resp := o.check_field_exists user_input
      if truthy (jget resp "found") then
        ({ m with fields := m.fields ++
            [{ field_id := jget resp "fieldId", existing := true,
               display_type := jget resp "displayType",
               validation_type := jget resp "validationType" }] },
         { tool_called := true, tool_name := some "check_field_exists",
           tool_result := some (.jsonObj resp), next_state := m.current_state,
           action_taken := some "field_added_existing" })
      else
        ({ m with pending_field_id := some user_input,
                  current_state := .FIELD_CREATION_CONFIRM },
         { state_changed := true, tool_called := true,
           tool_name := some "check_field_exists",
           tool_result := some (.jsonObj resp),
           next_state := .FIELD_CREATION_CONFIRM,
           action_taken := some "field_not_found_ask_create" })
  | .FIELD_CREATION_CONFIRM =>
    let user_lower := stripStr (lowerStr user_input)
    if ["yes", "y", "create", "ok", "sure"].any
        (fun word => containsSub user_lower word) then
      ({ m with current_state := .FIELD_DISPLAY_TYPE },
       { state_changed := true, next_state := .FIELD_DISPLAY_TYPE,
         action_taken := some "new_field_confirmed" })
    else if ["no", "n", "cancel", "skip"].any
        (fun word => containsSub user_lower word) then
      ({ m with pending_field_id := none, current_state := .FIELDS_NEEDED },
       { state_changed := true, next_state := .FIELDS_NEEDED,
         action_taken := some "field_creation_cancelled" })
    else (m, { next_state := m.current_state,
               action_taken := some "unclear_field_response" })
  | .FIELD_DISPLAY_TYPE =>
    let user_lower := stripStr (lowerStr user_input)
    if ["label", "checkbox", "radio", "textarea", "select", "date"].contains user_lower then
      ({ m with pending_display_type := some user_lower,
                current_state := .FIELD_VALIDATION_TYPE },
       { state_changed := true, next_state := .FIELD_VALIDATION_TYPE,
         action_taken := some "display_type_set" })
    else (m, { next_state := m.current_state,
               action_taken := some "invalid_display_type" })
  | .FIELD_VALIDATION_TYPE =>
    let validation_type := upperStr (stripStr user_input)
    let newField : Field :=
      { field_id := match m.pending_field_id with
                    | some s => some (.jstr s)
                    | none => none
        existing := false
        display_type := match m.pending_display_type with
                        | some s => some (.jstr s)
                        | none => none
        validation_type := some (.jstr validation_type) }
    ({ m with pending_validation_type := none, pending_field_id := none,
              pending_display_type := none,
              fields := m.fields ++ [newField],
              current_state := .FIELDS_NEEDED },
     { state_changed := true, next_state := .FIELDS_NEEDED,
       action_taken := some "field_added_new" })
  | .SQL_GENERATION =>
    let raw := o.generate_form_page_sql (buildFormData m)
    ({ m with current_state := .COMPLETE },
     { state_changed := true, tool_called := true,
       tool_name := some "generate_form_page_sql",
       tool_result := some (.rawText raw), next_state := .COMPLETE,
       action_taken := some "sql_generated" })
  | .COMPLETE => (m, { next_state := m.current_state })

/-- Characterisation of an utterance that matches no recognizable branch
condition of the current state, read off the guard conditions of
`_execute_state_logic`:
  * IDLE: none of the trigger words occurs in the lowered input;
  * ORG_NEEDED: the input is one of the bare acknowledgement words (the
    only no-tool branch);
  * PROCESS_NEEDED / PAGE_TITLE_NEEDED: the input is a bare continue word;
  * the confirm states: neither an affirmative nor a negative word occurs;
  * FIELDS_NEEDED: a done word with no fields collected, or a bare
    continue word;
  * FIELD_DISPLAY_TYPE: the input is not a valid display type;
  * FIELD_VALIDATION_TYPE: no utterance is unrecognized (every input is
    accepted unconditionally);
  * COMPLETE: every utterance (the state has no branches);
  * EVENT_NEEDED / SQL_GENERATION: excluded (they auto-execute). -/
def noBranchInput (m : WorkflowMemory) (user_input : String) : Bool :=
  match m.current_state with
  | .IDLE =>
    !(["create", "form", "page", "build", "yes"].any
        (fun phrase => containsSub (lowerStr user_input) phrase))
  | .ORG_NEEDED => ["yes", "ok", "sure", "proceed", "start"].contains (lowerStr user_input)
  | .PROCESS_NEEDED => ["ok", "next", "continue", "proceed"].contains (lowerStr user_input)
  | .PROCESS_CREATION_CONFIRM =>
    !(["yes", "y", "create", "ok", "sure", "proceed"].any
        (fun word => containsSub (stripStr (lowerStr user_input)) word)) &&
    !(["no", "n", "wrong", "cancel", "retry"].any
        (fun word => containsSub (stripStr (lowerStr user_input)) word))
  | .EVENT_NEEDED => false
  | .PAGE_TITLE_NEEDED => ["ok", "next", "continue", "proceed"].contains (lowerStr user_input)
  | .FIELDS_NEEDED =>
    (["done", "finish", "complete", "no more fields"].contains (lowerStr user_input)
      && m.fields.length = 0)
    || ["ok", "next", "continue", "proceed"].contains (lowerStr user_input)
  | .FIELD_CREATION_CONFIRM =>
    !(["yes", "y", "create", "ok", "sure"].any
        (fun word => containsSub (stripStr (lowerStr user_input)) word)) &&
    !(["no", "n", "cancel", "skip"].any
        (fun word => containsSub (stripStr (lowerStr user_input)) word))
  | .FIELD_DISPLAY_TYPE =>
    !(["label", "checkbox", "radio", "textarea", "select", "date"].contains
        (stripStr (lowerStr user_input)))
  | .FIELD_VALIDATION_TYPE => false
  | .SQL_GENERATION => false
  | .COMPLETE => true

/-- A tool oracle whose replies are all empty objects (and empty text for
the generation tool); used to instantiate universally quantified theorems
at concrete inputs. -/
def nullOracle : ToolOracle :=
  { get_organization_by_name := fun _ => []
    get_process_by_name := fun _ _ => []
    get_max_process_id := []
    get_events_for_process := fun _ _ => []
    check_field_exists := fun _ => []
    generate_page_url := fun _ => []
    generate_form_page_sql := fun _ => "" }

/-! ## Helper lemmas about prefixes of concatenations

Every element of `sqlOutputList` starts with the fixed literal text of the
template that produced it, so an element can be attributed to its template
by a prefix test, whatever the substituted values are. -/

/-- The fixed prefix identifying the `orgProcesses` INSERT template. -/
def probeOrgProcesses : String := "\nINSERT INTO orgProcesses ("

/-- The fixed prefix identifying the `orgPageValues` INSERT template. -/
def probeOrgPageValues : String := "INSERT INTO orgPageValues ("

theorem preAppend : ∀ (p l x : List Char), p.isPrefixOf l = true →
    p.isPrefixOf (l ++ x) = true
  | [], _, _, _ => by simp [List.isPrefixOf]
  | _ :: _, [], _, h => by simp [List.isPrefixOf] at h
  | a :: as, b :: bs, x, h => by
      show (a == b && as.isPrefixOf (bs ++ x)) = true
      have h' : (a == b && as.isPrefixOf bs) = true := h
      simp only [Bool.and_eq_true] at h' ⊢
      exact ⟨h'.1, preAppend as bs x h'.2⟩

theorem notPreLong : ∀ (p l x : List Char), p.isPrefixOf l = false →
    p.length ≤ l.length → p.isPrefixOf (l ++ x) = false
  | [], _, _, h, _ => by simp [List.isPrefixOf] at h
  | _ :: _, [], _, _, hl => by simp at hl
  | a :: as, b :: bs, x, h, hl => by
      show (a == b && as.isPrefixOf (bs ++ x)) = false
      have h' : (a == b && as.isPrefixOf bs) = false := h
      cases hab : a == b with
      | false => simp [hab]
      | true =>
        simp only [hab, Bool.true_and] at h' ⊢
        exact notPreLong as bs x h' (Nat.le_of_succ_le_succ hl)

theorem notPreShort : ∀ (p l x : List Char), l.isPrefixOf p = false →
    l.length ≤ p.length → p.isPrefixOf (l ++ x) = false
  | _, [], _, h, _ => by simp [List.isPrefixOf] at h
  | [], _ :: _, _, _, hl => by simp at hl
  | a :: as, b :: bs, x, h, hl => by
      show (a == b && as.isPrefixOf (bs ++ x)) = false
      have h' : (b == a && bs.isPrefixOf as) = false := h
      cases hab : a == b with
      | false => simp [hab]
      | true =>
        have hba : (b == a) = true := by
          have hab' : a = b := by simpa using hab
          simp [hab']
        simp only [hba, Bool.true_and] at h'
        simp only [hab, Bool.true_and]
        exact notPreShort as bs x h' (Nat.le_of_succ_le_succ hl)

theorem data_append (a b : String) : (a ++ b).data = a.data ++ b.data := by
  cases a; cases b; rfl

theorem hasPre_append_of {p l : String} (x : String) (h : hasPre p l = true) :
    hasPre p (l ++ x) = true := by
  unfold hasPre at *
  rw [data_append]
  exact preAppend _ _ _ h

theorem hasPre_append_false_long {p l : String} (x : String)
    (h : hasPre p l = false) (hl : p.data.length ≤ l.data.length) :
    hasPre p (l ++ x) = false := by
  unfold hasPre at *
  rw [data_append]
  exact notPreLong _ _ _ h hl

theorem hasPre_append_false_short {p l : String} (x : String)
    (h : hasPre l p = false) (hl : l.data.length ≤ p.data.length) :
    hasPre p (l ++ x) = false := by
  unfold hasPre at *
  rw [data_append]
  exact notPreShort _ _ _ h hl

/-! ### Attribution of output elements to their templates -/

theorem hasPre6_block (today : String) (fd : FormData) :
    hasPre probeOrgProcesses (orgProcessesBlock today fd) = true := by
  unfold orgProcessesBlock probeOrgProcesses
  simp only [String.append_assoc]
  exact hasPre_append_of _ (by decide)

theorem hasPre6_events (today : String) (fd : FormData) :
    hasPre probeOrgProcesses (orgProcessEventsBlock today fd) = false := by
  unfold orgProcessEventsBlock probeOrgProcesses
  simp only [String.append_assoc]
  exact hasPre_append_false_long _ (by decide) (by decide)

theorem hasPre6_pages (fd : FormData) :
    hasPre probeOrgProcesses (adminPagesBlock fd) = false := by
  unfold adminPagesBlock probeOrgProcesses
  simp only [String.append_assoc]
  exact hasPre_append_false_long _ (by decide) (by decide)

theorem hasPre6_formgroups (fd : FormData) :
    hasPre probeOrgProcesses (adminFormGroupsBlock fd) = false := by
  unfold adminFormGroupsBlock probeOrgProcesses
  simp only [String.append_assoc]
  exact hasPre_append_false_long _ (by decide) (by decide)

theorem hasPre6_fieldgroups (fd : FormData) (g : Int) :
    hasPre probeOrgProcesses (adminFieldGroupsStmt fd g) = false := by
  unfold adminFieldGroupsStmt probeOrgProcesses
  simp only [String.append_assoc]
  exact hasPre_append_false_long _ (by decide) (by decide)

theorem hasPre6_fields (today : String) (nf : NewField) :
    hasPre probeOrgProcesses (adminFieldsStmt today nf) = false := by
  unfold adminFieldsStmt probeOrgProcesses
  simp only [String.append_assoc]
  exact hasPre_append_false_long _ (by decide) (by decide)

theorem hasPre6_pv (today : String) (fd : FormData) (n : Int) (pv : PageValue) :
    hasPre probeOrgProcesses (orgPageValuesStmt today fd n pv) = false := by
  unfold orgPageValuesStmt probeOrgProcesses
  simp only [String.append_assoc]
  exact hasPre_append_false_long _ (by decide) (by decide)

theorem hasPre6_orgline (a b : String) :
    hasPre probeOrgProcesses ("Organization: " ++ a ++ " (orgId: " ++ b ++ ")") = false := by
  simp only [String.append_assoc]
  exact hasPre_append_false_short _ (by decide) (by decide)

theorem hasPre6_procline (a b : String) :
    hasPre probeOrgProcesses ("Process: " ++ a ++ " (processId: " ++ b ++ ")") = false := by
  simp only [String.append_assoc]
  exact hasPre_append_false_short _ (by decide) (by decide)

theorem hasPre6_pageline (a b : String) :
    hasPre probeOrgProcesses ("Page: " ++ a ++ " (pageId: " ++ b ++ ")") = false := by
  simp only [String.append_assoc]
  exact hasPre_append_false_short _ (by decide) (by decide)

theorem hasPre7_pv (today : String) (fd : FormData) (n : Int) (pv : PageValue) :
    hasPre probeOrgPageValues (orgPageValuesStmt today fd n pv) = true := by
  unfold orgPageValuesStmt probeOrgPageValues
  simp only [String.append_assoc]
  exact hasPre_append_of _ (by decide)

theorem hasPre7_block (today : String) (fd : FormData) :
    hasPre probeOrgPageValues (orgProcessesBlock today fd) = false := by
  unfold orgProcessesBlock probeOrgPageValues
  simp only [String.append_assoc]
  exact hasPre_append_false_long _ (by decide) (by decide)

theorem hasPre7_events (today : String) (fd : FormData) :
    hasPre probeOrgPageValues (orgProcessEventsBlock today fd) = false := by
  unfold orgProcessEventsBlock probeOrgPageValues
  simp only [String.append_assoc]
  exact hasPre_append_false_long _ (by decide) (by decide)

theorem hasPre7_pages (fd : FormData) :
    hasPre probeOrgPageValues (adminPagesBlock fd) = false := by
  unfold adminPagesBlock probeOrgPageValues
  simp only [String.append_assoc]
  exact hasPre_append_false_long _ (by decide) (by decide)

theorem hasPre7_formgroups (fd : FormData) :
    hasPre probeOrgPageValues (adminFormGroupsBlock fd) = false := by
  unfold adminFormGroupsBlock probeOrgPageValues
  simp only [String.append_assoc]
  exact hasPre_append_false_long _ (by decide) (by decide)

theorem hasPre7_fieldgroups (fd : FormData) (g : Int) :
    hasPre probeOrgPageValues (adminFieldGroupsStmt fd g) = false := by
  unfold adminFieldGroupsStmt probeOrgPageValues
  simp only [String.append_assoc]
  exact hasPre_append_false_long _ (by decide) (by decide)

theorem hasPre7_fields (today : String) (nf : NewField) :
    hasPre probeOrgPageValues (adminFieldsStmt today nf) = false := by
  unfold adminFieldsStmt probeOrgPageValues
  simp only [String.append_assoc]
  exact hasPre_append_false_long _ (by decide) (by decide)

theorem hasPre7_orgline (a b : String) :
    hasPre probeOrgPageValues ("Organization: " ++ a ++ " (orgId: " ++ b ++ ")") = false := by
  simp only [String.append_assoc]
  exact hasPre_append_false_short _ (by decide) (by decide)

theorem hasPre7_procline (a b : String) :
    hasPre probeOrgPageValues ("Process: " ++ a ++ " (processId: " ++ b ++ ")") = false := by
  simp only [String.append_assoc]
  exact hasPre_append_false_short _ (by decide) (by decide)

theorem hasPre7_pageline (a b : String) :
    hasPre probeOrgPageValues ("Page: " ++ a ++ " (pageId: " ++ b ++ ")") = false := by
  simp only [String.append_assoc]
  exact hasPre_append_false_short _ (by decide) (by decide)

/-! ### Section-level counting lemmas for the two template probes -/

theorem countP6_header (fd : FormData) :
    (headerSection fd).countP (hasPre probeOrgProcesses) = 0 := by
  apply List.countP_eq_zero.mpr
  intro s hs
  simp only [headerSection, List.mem_cons, List.not_mem_nil, or_false] at hs
  rcases hs with rfl | rfl | rfl | rfl | rfl | rfl | rfl
  · decide
  · decide
  · decide
  · simp [hasPre6_orgline]
  · simp [hasPre6_procline]
  · simp [hasPre6_pageline]
  · decide

theorem countP6_main (today : String) (fd : FormData) :
    (sqlOutputList today fd).countP (hasPre probeOrgProcesses) =
      if fd.is_new_process then 1 else 0 := by
  unfold sqlOutputList
  simp only [List.countP_append]
  rw [countP6_header]
  have h2 : (orgProcessesSection today fd).countP (hasPre probeOrgProcesses) =
      if fd.is_new_process then 1 else 0 := by
    unfold orgProcessesSection
    cases h : fd.is_new_process
    · simp
    · simp [List.countP_cons, hasPre6_block today fd]
      decide
  have h3 : (orgProcessEventsSection today fd).countP (hasPre probeOrgProcesses) = 0 := by
    simp [orgProcessEventsSection, List.countP_cons, hasPre6_events today fd]
    decide
  have h4 : (adminPagesSection fd).countP (hasPre probeOrgProcesses) = 0 := by
    simp [adminPagesSection, List.countP_cons, hasPre6_pages fd]
    decide
  have h5 : (adminFormGroupsSection fd).countP (hasPre probeOrgProcesses) = 0 := by
    unfold adminFormGroupsSection
    cases h : fd.is_new_group
    · simp
    · simp [List.countP_cons, hasPre6_formgroups fd]
      decide
  have h6 : (adminFieldGroupsSection fd).countP (hasPre probeOrgProcesses) = 0 := by
    unfold adminFieldGroupsSection
    cases h : fd.field_groups.isEmpty
    · simp only [Bool.false_eq_true, if_neg, ite_false, List.countP_append, List.countP_map]
      have hz : List.countP ((hasPre probeOrgProcesses) ∘ (adminFieldGroupsStmt fd))
          fd.field_groups = 0 := by
        apply List.countP_eq_zero.mpr
        intro g _
        simp [Function.comp, hasPre6_fieldgroups fd g]
      rw [hz]
      decide
    · simp
  have h7 : (adminFieldsSection today fd).countP (hasPre probeOrgProcesses) = 0 := by
    unfold adminFieldsSection
    cases h : fd.new_fields.isEmpty
    · simp only [Bool.false_eq_true, if_neg, ite_false, List.countP_append, List.countP_map]
      have hz : List.countP ((hasPre probeOrgProcesses) ∘ (adminFieldsStmt today))
          fd.new_fields = 0 := by
        apply List.countP_eq_zero.mpr
        intro nf _
        simp [Function.comp, hasPre6_fields today nf]
      rw [hz]
      decide
    · simp
  have h8 : (orgPageValuesSection today fd).countP (hasPre probeOrgProcesses) = 0 := by
    unfold orgPageValuesSection
    cases h : fd.page_values.isEmpty
    · simp only [Bool.false_eq_true, if_neg, ite_false, List.countP_append, List.countP_map]
      have hz : List.countP ((hasPre probeOrgProcesses) ∘
          (fun ip => orgPageValuesStmt today fd (Int.ofNat ip.1 + 1) ip.2))
          fd.page_values.enum = 0 := by
        apply List.countP_eq_zero.mpr
        intro ip _
        simp [Function.comp, hasPre6_pv today fd _ ip.2]
      rw [hz]
      decide
    · simp
  rw [h2, h3, h4, h5, h6, h7, h8]
  omega

theorem filter7_header (fd : FormData) :
    (headerSection fd).filter (hasPre probeOrgPageValues) = [] := by
  apply List.filter_eq_nil_iff.mpr
  intro s hs
  simp only [headerSection, List.mem_cons, List.not_mem_nil, or_false] at hs
  rcases hs with rfl | rfl | rfl | rfl | rfl | rfl | rfl
  · decide
  · decide
  · decide
  · simp [hasPre7_orgline]
  · simp [hasPre7_procline]
  · simp [hasPre7_pageline]
  · decide

theorem filter7_main (today : String) (fd : FormData) :
    (sqlOutputList today fd).filter (hasPre probeOrgPageValues) =
      fd.page_values.enum.map
        (fun ip => orgPageValuesStmt today fd (Int.ofNat ip.1 + 1) ip.2) := by
  unfold sqlOutputList
  simp only [List.filter_append]
  rw [filter7_header fd]
  have h2 : (orgProcessesSection today fd).filter (hasPre probeOrgPageValues) = [] := by
    unfold orgProcessesSection
    cases h : fd.is_new_process
    · simp
    · simp [List.filter, hasPre7_block today fd]
      decide
  have h3 : (orgProcessEventsSection today fd).filter (hasPre probeOrgPageValues) = [] := by
    simp [orgProcessEventsSection, List.filter, hasPre7_events today fd]
    decide
  have h4 : (adminPagesSection fd).filter (hasPre probeOrgPageValues) = [] := by
    simp [adminPagesSection, List.filter, hasPre7_pages fd]
    decide
  have h5 : (adminFormGroupsSection fd).filter (hasPre probeOrgPageValues) = [] := by
    unfold adminFormGroupsSection
    cases h : fd.is_new_group
    · simp
    · simp [List.filter, hasPre7_formgroups fd]
      decide
  have h6 : (adminFieldGroupsSection fd).filter (hasPre probeOrgPageValues) = [] := by
    unfold adminFieldGroupsSection
    cases h : fd.field_groups.isEmpty
    · simp only [Bool.false_eq_true, ite_false, List.filter_append]
      have hm : (fd.field_groups.map (adminFieldGroupsStmt fd)).filter
          (hasPre probeOrgPageValues) = [] := by
        apply List.filter_eq_nil_iff.mpr
        intro s hs
        rcases List.mem_map.mp hs with ⟨g, _, rfl⟩
        simp [hasPre7_fieldgroups fd g]
      rw [hm]
      decide
    · simp
  have h7 : (adminFieldsSection today fd).filter (hasPre probeOrgPageValues) = [] := by
    unfold adminFieldsSection
    cases h : fd.new_fields.isEmpty
    · simp only [Bool.false_eq_true, ite_false, List.filter_append]
      have hm : (fd.new_fields.map (adminFieldsStmt today)).filter
          (hasPre probeOrgPageValues) = [] := by
        apply List.filter_eq_nil_iff.mpr
        intro s hs
        rcases List.mem_map.mp hs with ⟨nf, _, rfl⟩
        simp [hasPre7_fields today nf]
      rw [hm]
      decide
    · simp
  have h8 : (orgPageValuesSection today fd).filter (hasPre probeOrgPageValues) =
      fd.page_values.enum.map
        (fun ip => orgPageValuesStmt today fd (Int.ofNat ip.1 + 1) ip.2) := by
    unfold orgPageValuesSection
    cases h : fd.page_values.isEmpty
    · simp only [Bool.false_eq_true, ite_false, List.filter_append]
      have hm : (fd.page_values.enum.map
          (fun ip => orgPageValuesStmt today fd (Int.ofNat ip.1 + 1) ip.2)).filter
          (hasPre probeOrgPageValues) =
          fd.page_values.enum.map
          (fun ip => orgPageValuesStmt today fd (Int.ofNat ip.1 + 1) ip.2) := by
        apply List.filter_eq_self.mpr
        intro s hs
        rcases List.mem_map.mp hs with ⟨ip, _, rfl⟩
        exact hasPre7_pv today fd _ ip.2
      rw [hm]
      simp
      decide
    · have hnil : fd.page_values = [] := List.isEmpty_iff.mp h
      simp [hnil]
  rw [h2, h3, h4, h5, h6, h7, h8]
  simp

/-- Membership in the bare continue-word list implies non-membership in the
done-word list of the FIELDS_NEEDED state (the two lists are disjoint). -/
theorem contDisj (s : String) :
    (["ok", "next", "continue", "proceed"].contains s) = true →
    (["done", "finish", "complete", "no more fields"].contains s) = false := by
  intro h
  simp only [List.contains_cons, List.contains_nil, Bool.or_eq_true, beq_iff_eq] at h
  rcases h with rfl | rfl | rfl | rfl | h
  · decide
  · decide
  · decide
  · decide
  · simp at h

/-! ## Spec-side rendering with an explicit escape policy (for the amended
substitution claim)

Modelled from the spec (§4.2 value-substitution rules), amended to what the
templates do: the escape hook `esc` is applied to exactly the free-text
names, titles and labels — `process_name` (twice), the event name
(`event_name` defaulting to `page_title`), `page_title` (twice, as
`pageTitle` and `pageDisplayName`), `group_name`, and the `display_label`
of a page value — while user-supplied identifiers (`field_id` in
`adminFields` and `orgPageValues`, `page_url`), the organization id, the
display/validation type codes and the date token are substituted verbatim,
with no escaping.  Instantiating `esc` with quote-doubling (`escQ`) must
reproduce the source generator exactly. -/
def specEscRender (esc : String → String) (today : String) (fd : FormData) : String :=
  joinNL
    ([eq80,
      "FORM PAGE CREATION - SQL STATEMENTS",
      eq80,
      "Organization: " ++ fd.org_name ++ " (orgId: " ++ fd.org_id ++ ")",
      "Process: " ++ fd.process_name ++ " (processId: " ++ toString fd.process_id ++ ")",
      "Page: " ++ fd.page_title ++ " (pageId: " ++ toString fd.page_id ++ ")",
      ""]
    ++ (if fd.is_new_process then
        ["\nINSERT INTO orgProcesses (\n    recSeq, orgId, recStatus, processId, processName, processGroupCode, pageId, platformAccess, geoFenced, \n    timeFenced, apiRouteName, externalURL, dataStatus, displaySeq, iconURL, isDefaultURL, fromDate, endDate, \n    createdBy, createdOn, modifiedBy, modifiedOn\n) VALUES (\n    1, '"
         ++ fd.org_id ++ "', 'A', " ++ toString fd.process_id ++ ", '"
         ++ esc fd.process_name ++ "', NULL, " ++ toString fd.process_id
         ++ ", NULL, NULL, \n    NULL, '" ++ esc fd.process_name
         ++ "', NULL, 'A', 0, NULL, 0, '" ++ today
         ++ "', NULL, \n    'ADMIN', CURRENT_TIMESTAMP, 'ADMIN', CURRENT_TIMESTAMP\n);",
         ""]
       else [])
    ++ ["\nINSERT INTO orgProcessEvents (\n    recSeq, orgId, recStatus, dataStatus, processId, eventId, eventName, eventGroupCode, pageId, eventProcessingFile, \n    isMenu, platformAccess, timeFenced, showMenu, displaySeq, fromDate, endDate, createdBy, createdOn, \n    modifiedBy, modifiedOn\n) VALUES (\n    1, '"
        ++ fd.org_id ++ "', 'A', 'A', " ++ toString fd.process_id ++ ", "
        ++ toString fd.event_id ++ ", '" ++ esc (fd.event_name.getD fd.page_title)
        ++ "', NULL, " ++ toString fd.page_id ++ ", '', \n    'Y', NULL, NULL, 'Y', 10, '"
        ++ today
        ++ "', NULL, 'ADMIN', CURRENT_TIMESTAMP, \n    'ADMIN', CURRENT_TIMESTAMP\n);",
        ""]
    ++ ["\nINSERT INTO adminPages (\n    pageId, recStatus, pageURL, pageTitle, pageDisplayName, processId, eventId, pageType, \n    hideProcessEvents, pageSize, language, createdBy, createdOn, modifiedBy, modifiedOn\n) VALUES (\n    "
        ++ toString fd.page_id ++ ", 'A', '" ++ fd.page_url ++ "', '"
        ++ esc fd.page_title ++ "', '" ++ esc fd.page_title ++ "', "
        ++ toString fd.process_id ++ ", " ++ toString fd.event_id
        ++ ", 'F', \n    'Y', 12, 'en_US', 'ADMIN', CURRENT_TIMESTAMP, 'ADMIN', CURRENT_TIMESTAMP\n);",
        ""]
    ++ (if fd.is_new_group then
        ["\nINSERT INTO adminFormGroups (\n    groupId, recStatus, groupName, groupStatus, displayDivLength, displaySeq, \n    createdBy, createdOn, modifiedBy, modifiedOn\n) VALUES (\n    "
         ++ toString fd.group_id ++ ", 'A', '"
         ++ esc (fd.group_name.getD ("Group_" ++ toString fd.group_id))
         ++ "', 'A', 12, 0, \n    'ADMIN', CURRENT_TIMESTAMP, 'ADMIN', CURRENT_TIMESTAMP\n);",
         ""]
       else [])
    ++ (if fd.field_groups.isEmpty then []
        else fd.field_groups.map (fun fg_id =>
          "INSERT INTO adminFieldGroups (\n    fieldGroupId, recStatus, groupId, fieldGroupStatus, displayDivLength, displaySeq, \n    createdBy, createdOn, modifiedBy, modifiedOn\n) VALUES (\n    "
          ++ toString fg_id ++ ", 'A', " ++ toString fd.group_id
          ++ ", 'A', 12, 0, \n    'ADMIN', CURRENT_TIMESTAMP, 'ADMIN', CURRENT_TIMESTAMP\n);")
          ++ [""])
    ++ (if fd.new_fields.isEmpty then []
        else fd.new_fields.map (fun nf =>
          "INSERT INTO adminFields (\n    fieldId, recStatus, fieldType, fieldStatus, dataFieldId, remarks, fromDate, \n    displayType, defaultValue, validationType, createdBy, createdOn, modifiedBy, modifiedOn\n) VALUES (\n    '"
          ++ nf.field_id ++ "', 'A', 'D', 'A', '" ++ nf.field_id ++ "', '', '"
          ++ today ++ "', \n    '" ++ nf.display_type.getD "label" ++ "', '', '"
          ++ nf.validation_type.getD "E"
          ++ "', 'ADMIN', CURRENT_TIMESTAMP, 'ADMIN', CURRENT_TIMESTAMP\n);")
          ++ [""])
    ++ (if fd.page_values.isEmpty then []
        else fd.page_values.enum.map (fun ip =>
          "INSERT INTO orgPageValues (\n    pageId, recSeq, orgId, recStatus, groupId, fieldGroupId, fieldId, \n    displayLabel, displayType, displaySubType, displayChannel, displayDivLength, displayLanguage, displaySeq, \n    displayDataLength, labelAlignment, required, mandatory, pageValueStatus, dependsOnValue, isRelativeTimeZone, \n    noWrap, isFilterable, sortable,  fromDate, helpText, defaultValue, validationType, \n    createdBy, createdOn, modifiedBy, modifiedOn\n) VALUES (\n    "
          ++ toString fd.page_id ++ ", " ++ toString (Int.ofNat ip.1 + 1) ++ ", '" ++ fd.org_id
          ++ "', 'A', " ++ toString (ip.2.group_id.getD fd.group_id) ++ ", "
          ++ toString (ip.2.field_group_id.getD fd.group_id) ++ ", '" ++ ip.2.field_id
          ++ "', \n    '" ++ jinjaIfStr ip.2.display_label esc
          ++ "', \n    '" ++ jinjaIfStr ip.2.display_type id
          ++ "', 'search',\n    'D', 12, 'en_US', 10, 0,\n    'left', 'Y', 'Y', 'A', NULL, 0, 'Y', \n    NULL, NULL, '"
          ++ today ++ "', '', '', \n    '" ++ jinjaIfStr ip.2.validation_type id
          ++ "', \n    'ADMIN', CURRENT_TIMESTAMP, 'ADMIN', CURRENT_TIMESTAMP\n);")
          ++ [""]))

/-! ## Concrete inputs used to instantiate the theorems -/

/-- Memory in PROCESS_NEEDED after the organization step of the spec
scenario. -/
def memC1 : WorkflowMemory :=
  { initMemory with
    current_state := .PROCESS_NEEDED
    org_id := some (.jstr "O1")
    org_name := some (.jstr "Acme Inc") }

/-- Oracle for the process-not-found branch: the process lookup misses and
`get_max_process_id` replies with the server's success object for
`MAX(processId) = 100`, i.e. `suggestedNextProcessId = 200`. -/
def oC1 : ToolOracle :=
  { nullOracle with
    get_process_by_name := fun _ _ =>
      [("success", some (.jbool true)), ("found", some (.jbool false)),
       ("message", some (.jstr "Process not found"))]
    get_max_process_id := serverMaxProcessIdResp (some 100) }

/-- A fully collected memory sitting in SQL_GENERATION. -/
def memC2 : WorkflowMemory :=
  { initMemory with
    current_state := .SQL_GENERATION
    org_id := some (.jstr "O1")
    org_name := some (.jstr "Acme Inc")
    process_id := some (.jnum 100)
    process_name := some (.jstr "Onboarding")
    event_id := some (.jnum 101)
    page_id := some (.jnum 101)
    page_title := some (.jstr "Task Details")
    page_url := some (.jstr "taskDetails")
    fields := [{ field_id := some (.jstr "email"), existing := false,
                 display_type := some (.jstr "label"),
                 validation_type := some (.jstr "E") }] }

/-- Oracle whose generation tool reports the textual error that
`generate_form_page_sql` returns on malformed JSON. -/
def oC2 : ToolOracle :=
  { nullOracle with
    generate_form_page_sql := fun _ =>
      "Error: Invalid JSON format - Expecting value: line 1 column 1 (char 0)" }

/-- Memory waiting in PROCESS_CREATION_CONFIRM with suggested id 200. -/
def memC3 : WorkflowMemory :=
  { initMemory with
    current_state := .PROCESS_CREATION_CONFIRM
    org_id := some (.jstr "O1")
    process_name := some (.jstr "Onboarding")
    suggested_process_id := some (.jnum 200) }

/-- Aggregate whose single page value carries only `field_id`: the optional
`display_label`, `display_type` and `validation_type` are absent. -/
def fdC4 : FormData :=
  { org_id := "O1", org_name := "Acme", process_id := 100, process_name := "P",
    event_id := 101, page_id := 101, page_title := "T", page_url := "t",
    page_values := [{ field_id := "email" }] }

/-- Aggregate with a single quote embedded in a user-supplied field id and
in the page URL. -/
def fdC5 : FormData :=
  { org_id := "O1", org_name := "Acme", process_id := 100, process_name := "Proc",
    event_id := 101, page_id := 101, page_title := "Title",
    page_url := "task'Details",
    new_fields := [{ field_id := "o'brien" }] }

/-- Aggregate for the clock-sharing witness. -/
def fdC9 : FormData :=
  { org_id := "O9", org_name := "Org Nine", process_id := 300,
    process_name := "Review", event_id := 301, page_id := 301,
    page_title := "Review Page", page_url := "reviewPage" }

/-- Memory in EVENT_NEEDED for an existing process, event/page ids not yet
set. -/
def memC10 : WorkflowMemory :=
  { initMemory with
    current_state := .EVENT_NEEDED
    org_id := some (.jstr "O1")
    process_id := some (.jnum 100) }

/-- Oracle whose events lookup returns the miss-shaped object `_call_tool`
produces for a transport error. -/
def oC10 : ToolOracle :=
  { nullOracle with
    get_events_for_process := fun _ _ =>
      [("success", some (.jbool false)),
       ("error", some (.jstr "All connection attempts failed"))] }

/-! ## Claim theorems -/

/-- C1: the claim states that when the process lookup misses and
`get_max_process_id` replies successfully with `suggestedNextProcessId = n`
(here 200), the step stores `memory.suggested_process_id == n` before
moving to PROCESS_CREATION_CONFIRM.  The transition happens, but the stored
value is 1, not 200: the tool's reply carries the key
`suggestedNextProcessId` while the client reads
`max_id_data.get("suggested_next_id", 1)` (clientreset.py line 243), a key
the tool never sends, so the default 1 is stored. -/
theorem c1_suggested_id_key_mismatch :
    jget (serverMaxProcessIdResp (some 100)) "suggestedNextProcessId"
      = some (.jnum 200) ∧
    (step oC1 memC1 "Onboarding").1.current_state = .PROCESS_CREATION_CONFIRM ∧
    (step oC1 memC1 "Onboarding").2.action_taken = some "process_not_found_ask_create" ∧
    (step oC1 memC1 "Onboarding").1.suggested_process_id = some (.jnum 1) ∧
    (step oC1 memC1 "Onboarding").1.suggested_process_id ≠ some (.jnum 200) := by
  refine ⟨by decide, by decide, by decide, by decide, by decide⟩

/-- C2 counterexample: with the generation tool returning a textual error,
the step from SQL_GENERATION still moves `current_state` to COMPLETE — it
does not remain in SQL_GENERATION as the claim states. -/
theorem c2_generation_error_advances_counterexample :
    (step oC2 memC2 "generate").2.tool_result =
      some (.rawText "Error: Invalid JSON format - Expecting value: line 1 column 1 (char 0)") ∧
    (step oC2 memC2 "generate").1.current_state = .COMPLETE ∧
    (step oC2 memC2 "generate").1.current_state ≠ .SQL_GENERATION := by
  refine ⟨by decide, by decide, by decide⟩

/-- C2 amended: a step in SQL_GENERATION advances to COMPLETE
unconditionally, with action `sql_generated` and the tool's reply — error
text or SQL — returned verbatim as the payload; no retry is possible
without a reset. -/
theorem c2_sql_generation_always_completes (o : ToolOracle) (m : WorkflowMemory)
    (input : String) (h : m.current_state = .SQL_GENERATION) :
    (step o m input).1.current_state = .COMPLETE ∧
    (step o m input).2.next_state = .COMPLETE ∧
    (step o m input).2.action_taken = some "sql_generated" ∧
    (step o m input).2.tool_result =
      some (.rawText (o.generate_form_page_sql (buildFormData m))) := by
  simp [step, h]

/-- Witness for C2 amended at the concrete error-reporting oracle. -/
theorem c2_sql_generation_always_completes_witness :
    memC2.current_state = .SQL_GENERATION ∧
    ((step oC2 memC2 "retry").1.current_state = .COMPLETE ∧
     (step oC2 memC2 "retry").2.next_state = .COMPLETE ∧
     (step oC2 memC2 "retry").2.action_taken = some "sql_generated" ∧
     (step oC2 memC2 "retry").2.tool_result =
       some (.rawText (oC2.generate_form_page_sql (buildFormData memC2)))) :=
  ⟨rfl, c2_sql_generation_always_completes oC2 memC2 "retry" rfl⟩

/-- C3: in PROCESS_CREATION_CONFIRM, every utterance matching the
affirmative condition (one of the affirmative words occurs in the lowered,
stripped input) sets `is_new_process` and aliases
`event_id = page_id = process_id = suggested_process_id` exactly, then
moves to PAGE_TITLE_NEEDED. -/
theorem c3_process_confirm_sets_alias (o : ToolOracle) (m : WorkflowMemory)
    (input : String)
    (hs : m.current_state = .PROCESS_CREATION_CONFIRM)
    (haff : (["yes", "y", "create", "ok", "sure", "proceed"].any
      (fun word => containsSub (stripStr (lowerStr input)) word)) = true) :
    (step o m input).1.is_new_process = true ∧
    (step o m input).1.process_id = m.suggested_process_id ∧
    (step o m input).1.event_id = m.suggested_process_id ∧
    (step o m input).1.page_id = m.suggested_process_id ∧
    (step o m input).1.suggested_process_id = m.suggested_process_id ∧
    (step o m input).1.current_state = .PAGE_TITLE_NEEDED ∧
    (step o m input).2.action_taken = some "new_process_confirmed" := by
  simp only [List.any_cons, List.any_nil, Bool.or_eq_true] at haff
  rcases haff with h | h | h | h | h | h | h
  · simp [step, hs, h]
  · simp [step, hs, h]
  · simp [step, hs, h]
  · simp [step, hs, h]
  · simp [step, hs, h]
  · simp [step, hs, h]
  · simp at h

/-- Witness for C3 at the reply "yes" with suggested id 200. -/
theorem c3_process_confirm_sets_alias_witness :
    memC3.current_state = .PROCESS_CREATION_CONFIRM ∧
    (["yes", "y", "create", "ok", "sure", "proceed"].any
      (fun word => containsSub (stripStr (lowerStr "yes")) word)) = true ∧
    ((step nullOracle memC3 "yes").1.is_new_process = true ∧
     (step nullOracle memC3 "yes").1.process_id = memC3.suggested_process_id ∧
     (step nullOracle memC3 "yes").1.event_id = memC3.suggested_process_id ∧
     (step nullOracle memC3 "yes").1.page_id = memC3.suggested_process_id ∧
     (step nullOracle memC3 "yes").1.suggested_process_id = memC3.suggested_process_id ∧
     (step nullOracle memC3 "yes").1.current_state = .PAGE_TITLE_NEEDED ∧
     (step nullOracle memC3 "yes").2.action_taken = some "new_process_confirmed") :=
  ⟨rfl, by decide, c3_process_confirm_sets_alias nullOracle memC3 "yes" rfl (by decide)⟩

/-- C4: the claim states that an absent optional page-value attribute is
rendered as the bare token NULL without surrounding quotes.  The repo's own
`sql_escape` helper does emit the bare token, but the `orgPageValues`
template wraps its conditional slots in single quotes, so the rendered
output for a page value with absent `display_label`, `display_type` and
`validation_type` contains the quoted string literal `'NULL'` in those
three positions. -/
theorem c4_absent_optionals_render_quoted_null :
    sql_escape none = "NULL" ∧
    containsSub (generate_sql_statements "2025-01-01" fdC4) "'NULL'" = true ∧
    containsSub (generate_sql_statements "2025-01-01" fdC4)
      "'email', \n    'NULL', \n    'NULL', 'search'," = true ∧
    containsSub (generate_sql_statements "2025-01-01" fdC4)
      "'', \n    'NULL', \n    'ADMIN'" = true := by
  refine ⟨rfl, by decide, by decide, by decide⟩

/-- C5 counterexample: a single quote embedded in a user-supplied field id
or in the page URL is substituted verbatim — the doubled form never occurs
in the rendered output, refuting the claim for those value classes. -/
theorem c5_identifier_escaping_counterexample :
    containsSub (generate_sql_statements "2025-01-01" fdC5) "'o'brien'" = true ∧
    containsSub (generate_sql_statements "2025-01-01" fdC5) "o''brien" = false ∧
    containsSub (generate_sql_statements "2025-01-01" fdC5) "'task'Details'" = true ∧
    containsSub (generate_sql_statements "2025-01-01" fdC5) "task''Details" = false := by
  refine ⟨by decide, by decide, by decide, by decide⟩

/-- C5 amended: the generator escapes by quote-doubling exactly the
free-text names, titles and labels (process name, event name, page title,
group name, display label), and substitutes user-supplied identifiers
(field ids, the page URL), the organization id, type codes and the date
verbatim: instantiating the escape hook of the spec-side renderer with
quote-doubling reproduces the generator exactly. -/
theorem c5_escape_policy_refinement (today : String) (fd : FormData) :
    generate_sql_statements today fd = specEscRender escQ today fd := by
  rfl

/-- C6: the rendered output contains an `orgProcesses` INSERT block —
an element of the output list carrying that template's fixed prefix —
exactly once when `is_new_process` is true, and not at all otherwise. -/
theorem c6_orgProcesses_iff_new_process (today : String) (fd : FormData) :
    (sqlOutputList today fd).countP (hasPre probeOrgProcesses) =
      if fd.is_new_process then 1 else 0 :=
  countP6_main today fd

/-- C7: the `orgPageValues` INSERT statements occurring in the rendered
output are exactly one per `page_values` entry, in list order, with
`recSeq` = index + 1 (1..N); in particular there are exactly
`len(page_values)` of them, whatever the `existing` flags were (the client
maps every collected field, existing or new, to one `page_values` entry). -/
theorem c7_orgPageValues_per_field (today : String) (fd : FormData) :
    (sqlOutputList today fd).filter (hasPre probeOrgPageValues) =
      fd.page_values.enum.map
        (fun ip => orgPageValuesStmt today fd (Int.ofNat ip.1 + 1) ip.2) ∧
    ((sqlOutputList today fd).filter (hasPre probeOrgPageValues)).length =
      fd.page_values.length ∧
    (∀ m : WorkflowMemory, (buildFormData m).page_values.length = m.fields.length) := by
  refine ⟨filter7_main today fd, ?_, ?_⟩
  · rw [filter7_main today fd]
    simp
  · intro m
    simp [buildFormData]

/-- C8: in every state except EVENT_NEEDED and SQL_GENERATION, an utterance
matching no recognizable branch condition of the state leaves
`current_state` unchanged. -/
theorem c8_unrecognized_input_keeps_state (o : ToolOracle) (m : WorkflowMemory)
    (input : String)
    (h1 : m.current_state ≠ .EVENT_NEEDED)
    (h2 : m.current_state ≠ .SQL_GENERATION)
    (h3 : noBranchInput m input = true) :
    (step o m input).1.current_state = m.current_state := by
  cases hst : m.current_state
  case IDLE =>
    simp only [noBranchInput, hst] at h3
    simp only [Bool.not_eq_true'] at h3
    simp only [step, hst]
    simp [h3, hst]
  case ORG_NEEDED =>
    simp only [noBranchInput, hst, List.contains_cons, List.contains_nil,
      Bool.or_eq_true, beq_iff_eq] at h3
    simp only [step, hst]
    rcases h3 with h | h | h | h | h | h
    · simp [h, hst]
    · simp [h, hst]
    · simp [h, hst]
    · simp [h, hst]
    · simp [h, hst]
    · simp at h
  case PROCESS_NEEDED =>
    simp only [noBranchInput, hst, List.contains_cons, List.contains_nil,
      Bool.or_eq_true, beq_iff_eq] at h3
    simp only [step, hst]
    rcases h3 with h | h | h | h | h
    · simp [h, hst]
    · simp [h, hst]
    · simp [h, hst]
    · simp [h, hst]
    · simp at h
  case PROCESS_CREATION_CONFIRM =>
    simp only [noBranchInput, hst] at h3
    simp only [Bool.and_eq_true, Bool.not_eq_true'] at h3
    simp only [step, hst]
    simp [h3.1, h3.2, hst]
  case EVENT_NEEDED => exact absurd hst h1
  case PAGE_TITLE_NEEDED =>
    simp only [noBranchInput, hst, List.contains_cons, List.contains_nil,
      Bool.or_eq_true, beq_iff_eq] at h3
    simp only [step, hst]
    rcases h3 with h | h | h | h | h
    · simp [h, hst]
    · simp [h, hst]
    · simp [h, hst]
    · simp [h, hst]
    · simp at h
  case FIELDS_NEEDED =>
    simp only [noBranchInput, hst, List.contains_cons, List.contains_nil,
      Bool.or_eq_true, Bool.and_eq_true, beq_iff_eq, decide_eq_true_eq] at h3
    simp only [step, hst]
    rcases h3 with ⟨hd, hlen⟩ | hc
    · rcases hd with h | h | h | h | h
      · simp [h, hlen, hst]
      · simp [h, hlen, hst]
      · simp [h, hlen, hst]
      · simp [h, hlen, hst]
      · simp at h
    · rcases hc with h | h | h | h | h
      · simp [h, hst]
      · simp [h, hst]
      · simp [h, hst]
      · simp [h, hst]
      · simp at h
  case FIELD_CREATION_CONFIRM =>
    simp only [noBranchInput, hst] at h3
    simp only [Bool.and_eq_true, Bool.not_eq_true'] at h3
    simp only [step, hst]
    simp [h3.1, h3.2, hst]
  case FIELD_DISPLAY_TYPE =>
    simp only [noBranchInput, hst, List.contains_cons, List.contains_nil,
      Bool.not_eq_true', Bool.or_eq_false_iff, beq_eq_false_iff_ne] at h3
    simp only [step, hst]
    simp [h3.1, h3.2.1, h3.2.2.1, h3.2.2.2.1, h3.2.2.2.2.1, h3.2.2.2.2.2.1, hst]
  case FIELD_VALIDATION_TYPE =>
    simp only [noBranchInput, hst] at h3
    simp at h3
  case SQL_GENERATION => exact absurd hst h2
  case COMPLETE =>
    simp [step, hst]

/-- Witness for C8: a non-trigger utterance in IDLE. -/
theorem c8_unrecognized_input_keeps_state_witness :
    initMemory.current_state ≠ WorkflowState.EVENT_NEEDED ∧
    initMemory.current_state ≠ WorkflowState.SQL_GENERATION ∧
    noBranchInput initMemory "hello there" = true ∧
    (step nullOracle initMemory "hello there").1.current_state =
      initMemory.current_state :=
  ⟨by decide, by decide, by decide,
   c8_unrecognized_input_keeps_state nullOracle initMemory "hello there"
     (by decide) (by decide) (by decide)⟩

/-- C9: rendering is deterministic given the date and reads the ambient
clock exactly once, at entry: two render calls whose clocks agree on the
first reading produce byte-identical output, whatever the clocks return
afterwards. -/
theorem c9_clock_read_once (clock1 clock2 : Nat → String) (fd : FormData)
    (h : clock1 0 = clock2 0) :
    generate_sql_statements_clocked clock1 fd =
      generate_sql_statements_clocked clock2 fd := by
  unfold generate_sql_statements_clocked
  rw [h]

/-- Witness for C9: a clock that changes after the first reading against a
frozen clock. -/
theorem c9_clock_read_once_witness :
    (fun n : Nat => if n = 0 then "2025-06-01" else "2099-12-31") 0 =
      (fun _ : Nat => "2025-06-01") 0 ∧
    generate_sql_statements_clocked
        (fun n : Nat => if n = 0 then "2025-06-01" else "2099-12-31") fdC9 =
      generate_sql_statements_clocked (fun _ : Nat => "2025-06-01") fdC9 :=
  ⟨rfl, c9_clock_read_once _ _ fdC9 rfl⟩

/-- C10: in EVENT_NEEDED with `is_new_process` false, the step moves to
PAGE_TITLE_NEEDED with action `event_id_retrieved` for every tool reply,
and when the reply's `success` is falsy (a `success=false` reply or the
miss-shaped object `_call_tool` builds for a transport error), `event_id`
and `page_id` are left exactly as they were — `None` if unset. -/
theorem c10_event_needed_unconditional_advance (o : ToolOracle)
    (m : WorkflowMemory) (input : String)
    (h1 : m.current_state = .EVENT_NEEDED)
    (h2 : m.is_new_process = false) :
    (step o m input).1.current_state = .PAGE_TITLE_NEEDED ∧
    (step o m input).2.action_taken = some "event_id_retrieved" ∧
    (step o m input).2.state_changed = true ∧
    (truthy (jget (o.get_events_for_process m.process_id m.org_id) "success") = false →
      (step o m input).1.event_id = m.event_id ∧
      (step o m input).1.page_id = m.page_id) := by
  simp only [step, h1, h2]
  refine ⟨by simp, by simp, by simp, ?_⟩
  intro hfail
  simp [hfail]

/-- Witness for C10 at a transport-error reply: the step advances and the
unset event/page ids stay `None`. -/
theorem c10_event_needed_unconditional_advance_witness :
    memC10.current_state = .EVENT_NEEDED ∧
    memC10.is_new_process = false ∧
    ((step oC10 memC10 "ok").1.current_state = .PAGE_TITLE_NEEDED ∧
     (step oC10 memC10 "ok").2.action_taken = some "event_id_retrieved" ∧
     (step oC10 memC10 "ok").2.state_changed = true ∧
     (truthy (jget (oC10.get_events_for_process memC10.process_id memC10.org_id)
         "success") = false →
       (step oC10 memC10 "ok").1.event_id = memC10.event_id ∧
       (step oC10 memC10 "ok").1.page_id = memC10.page_id)) ∧
    (step oC10 memC10 "ok").1.event_id = none ∧
    (step oC10 memC10 "ok").1.page_id = none :=
  ⟨rfl, rfl,
   c10_event_needed_unconditional_advance oC10 memC10 "ok" rfl rfl,
   by decide, by decide⟩

end UIBot
